import Mathlib

/-!
Verification of the zotero-assistant MCP remote server, against its
natural-language specification.

The TypeScript sources `src/zotero.ts` (worker copy, called the legacy copy
below) and `packages/mcp/src/zotero.ts` (packages copy) are shallowly
embedded.  Remote I/O is modelled by oracle records supplying the outcome of
each network call, in the order the code issues them; JavaScript truthiness
on optional strings is modelled explicitly (`jsTruthy`).  Platform
primitives the code delegates to are modelled at their observable interface:
the WHATWG URL parser's output is the `ParsedUrl` input of `unwrapUrl`
(`none` = the constructor threw), and `decodeURIComponent` is implemented
after the ECMA-262 Decode algorithm, returning `none` exactly where the
builtin throws `URIError`.  All string manipulation is re-implemented with
structural recursion over `List Char` so that every definition evaluates
inside the kernel.
-/

deriving instance DecidableEq for Except

namespace Zot

/-- JavaScript truthiness of an optional string: `undefined`, `null` and
the empty string are falsy. -/
def jsTruthy : Option String → Bool
  | some s => s != ""
  | none => false

/-- JavaScript `a || b` on optional strings. -/
def jsOr (a b : Option String) : Option String := if jsTruthy a then a else b

/-- JavaScript `a || null` on optional strings. -/
def jsOrNull (a : Option String) : Option String := if jsTruthy a then a else none

/-- ASCII lower-casing, the behaviour of `String.prototype.toLowerCase`
on the ASCII strings this code compares. -/
def lowerStr (s : String) : String := String.mk (s.data.map Char.toLower)

/-- Split worker (fuel-driven so that it is structurally recursive and
kernel-reducible); mirrors `String.prototype.split` with a non-empty
separator: every occurrence separates, empty fields are kept. -/
def splitGo (sep : List Char) : Nat → List Char → List (List Char)
  | _, [] => [[]]
  | 0, l => [l]
  | fuel+1, c :: rest =>
    if sep.isPrefixOf (c :: rest) then
      [] :: splitGo sep fuel ((c :: rest).drop sep.length)
    else
      match splitGo sep fuel rest with
      | t :: ts => (c :: t) :: ts
      | [] => [[c]]

/-- `s.split(sep)` for a non-empty separator. -/
def splitStr (s sep : String) : List String :=
  if sep.data.isEmpty then [s]
  else (splitGo sep.data (s.data.length + 1) s.data).map String.mk

/-- `s.startsWith(pre)`. -/
def strStartsWith (s pre : String) : Bool := pre.data.isPrefixOf s.data

/-- `s.endsWith(suf)`. -/
def strEndsWith (s suf : String) : Bool := suf.data.reverse.isPrefixOf s.data.reverse

/-- Substring containment, the effect of testing a literal (regex-escaped)
pattern against `s`. -/
def containsStr (s pat : String) : Bool := 1 < (splitStr s pat).length

/-- The remainder of `s` after the first occurrence of `pat`, when any. -/
def afterFirst (s pat : String) : Option String :=
  match splitStr s pat with
  | _ :: r :: rest => some (String.intercalate pat (r :: rest))
  | _ => none

/-- `p1` followed (possibly after other characters) by `p2`, the effect of
the regex `p1.*p2` on the slash-free-of-newlines strings tested here. -/
def containsThen (s p1 p2 : String) : Bool :=
  match afterFirst s p1 with
  | some r => containsStr r p2
  | none => false

/-- JavaScript whitespace as relevant to `trim` and `\s` on ASCII input. -/
def isJsSpace (c : Char) : Bool :=
  c == ' ' || c == '\t' || c == '\n' || c == '\r' || c == '\x0b' || c == '\x0c'

/-- `s.trim()`. -/
def trimStr (s : String) : String :=
  String.mk (((s.data.dropWhile isJsSpace).reverse.dropWhile isJsSpace).reverse)

/-- Decimal digit character. -/
def digitChar (n : Nat) : Char := Char.ofNat (48 + n)

/-- Decimal digits of `n` (fuel-driven, kernel-reducible). -/
def natDigits : Nat → Nat → List Char
  | 0, _ => []
  | fuel+1, n => if n < 10 then [digitChar n] else natDigits fuel (n / 10) ++ [digitChar (n % 10)]

/-- Decimal rendering of a natural number (template-literal interpolation). -/
def natToStr (n : Nat) : String := String.mk (natDigits (n + 1) n)

-- -------------------------------------------------------------------------
-- decodeURIComponent (ECMA-262 Decode with an empty reserved set).
-- `none` models a thrown URIError.
-- -------------------------------------------------------------------------

/-- Value of one hexadecimal digit. -/
def hexVal (c : Char) : Option Nat :=
  if '0' ≤ c ∧ c ≤ '9' then some (c.toNat - '0'.toNat)
  else if 'a' ≤ c ∧ c ≤ 'f' then some (c.toNat - 'a'.toNat + 10)
  else if 'A' ≤ c ∧ c ≤ 'F' then some (c.toNat - 'A'.toNat + 10)
  else none

/-- A literal character, or the byte of one `%XX` escape. -/
inductive PctTok where
  | ch (c : Char)
  | byte (b : Nat)
deriving Repr, DecidableEq

/-- Tokenise: each `%` must be followed by two hexadecimal digits. -/
def pctTokens : List Char → Option (List PctTok)
  | [] => some []
  | '%' :: h :: l :: rest => do
    let hi ← hexVal h
    let lo ← hexVal l
    let ts ← pctTokens rest
    pure (.byte (16 * hi + lo) :: ts)
  | '%' :: _ => none
  | c :: rest => (pctTokens rest).map (fun ts => .ch c :: ts)

/-- UTF-8 continuation byte. -/
def isCont (b : Nat) : Bool := decide (0x80 ≤ b ∧ b < 0xC0)

/-- UTF-8 decoding of the escaped bytes in a token stream; literal
characters pass through.  Malformed sequences (stray continuation,
truncated sequence, overlong encoding, surrogate, out of range) fail,
exactly the cases in which the builtin throws. -/
def utf8Tokens : List PctTok → Option (List Char)
  | [] => some []
  | .ch c :: rest => (utf8Tokens rest).map (fun cs => c :: cs)
  | .byte b :: rest =>
    if b < 0x80 then (utf8Tokens rest).map (fun cs => Char.ofNat b :: cs)
    else if b < 0xC0 then none
    else if b < 0xE0 then
      match rest with
      | .byte b1 :: rest2 =>
        if isCont b1 then
          let cp := (b - 0xC0) * 0x40 + (b1 - 0x80)
          if 0x80 ≤ cp then (utf8Tokens rest2).map (fun cs => Char.ofNat cp :: cs) else none
        else none
      | _ => none
    else if b < 0xF0 then
      match rest with
      | .byte b1 :: .byte b2 :: rest2 =>
        if isCont b1 && isCont b2 then
          let cp := (b - 0xE0) * 0x1000 + (b1 - 0x80) * 0x40 + (b2 - 0x80)
          if 0x800 ≤ cp ∧ (cp < 0xD800 ∨ 0xDFFF < cp) then
            (utf8Tokens rest2).map (fun cs => Char.ofNat cp :: cs)
          else none
        else none
      | _ => none
    else if b < 0xF8 then
      match rest with
      | .byte b1 :: .byte b2 :: .byte b3 :: rest2 =>
        if isCont b1 && isCont b2 && isCont b3 then
          let cp := (b - 0xF0) * 0x40000 + (b1 - 0x80) * 0x1000 + (b2 - 0x80) * 0x40 + (b3 - 0x80)
          if 0x10000 ≤ cp ∧ cp ≤ 0x10FFFF then
            (utf8Tokens rest2).map (fun cs => Char.ofNat cp :: cs)
          else none
        else none
      | _ => none
    else none

/-- `decodeURIComponent`; `none` models a thrown `URIError`. -/
def decodeURIComponent (s : String) : Option String :=
  (pctTokens s.data).bind (fun ts => (utf8Tokens ts).map (fun cs => String.mk cs))

-- -------------------------------------------------------------------------
-- unwrapUrl (identical in both copies of zotero.ts)
-- -------------------------------------------------------------------------

/-- Observable output of `new URL(raw)`: the serialised pathname and the
decoded key/value pairs of `searchParams`, in order.  `unwrapUrl` receives
`none` when the constructor threw. -/
structure ParsedUrl where
  pathname : String
  searchParams : List (String × String)
deriving Repr, DecidableEq

/-- `searchParams.get(name)`: first value for the name, `none` for null. -/
def getParam (ps : List (String × String)) (name : String) : Option String :=
  (ps.find? (fun p => p.1 == name)).map (fun p => p.2)

/-- `WRAPPER_PATTERNS.test(pathname)` — the case-insensitive regex
`pdfrenderer|pdf\.svc|htmltopdf|html2pdf|render.*pdf|pdf.*render|webshot|screenshot|snapshot|proxy\.php|fetch\.php`. -/
def wrapperTest (pathname : String) : Bool :=
  let p := lowerStr pathname
  containsStr p "pdfrenderer" || containsStr p "pdf.svc" ||
  containsStr p "htmltopdf" || containsStr p "html2pdf" ||
  containsThen p "render" "pdf" || containsThen p "pdf" "render" ||
  containsStr p "webshot" || containsStr p "screenshot" || containsStr p "snapshot" ||
  containsStr p "proxy.php" || containsStr p "fetch.php"

/-- The fixed candidate parameter names, in scan order. -/
def URL_PARAM_NAMES : List String := ["url", "source", "target", "uri", "link", "src"]

/-- `pathname.replace(/^\/|\/$/g, "")`: one leading and one trailing slash
are removed. -/
def stripEdgeSlashes (p : String) : String :=
  let l := if p.data.head? == some '/' then p.data.drop 1 else p.data
  let l := if l.getLast? == some '/' then l.dropLast else l
  String.mk l

/-- The segment list the code tests:
`pathname.replace(/^\/|\/$/g, "").split("/")` (empty segments included). -/
def pathSegments (p : String) : List String := splitStr (stripEdgeSlashes p) "/"

/-- The non-empty segments of a path, split on `/` — the quantity the
specification's acceptance condition speaks about. -/
def nonEmptySegments (p : String) : List String :=
  (splitStr p "/").filter (fun s => s != "")

/-- The `for (const param of URL_PARAM_NAMES)` loop of `unwrapUrl`.
`Except.error ()` models the uncaught `URIError` thrown by
`decodeURIComponent` on a malformed candidate. -/
def unwrapLoop (u : ParsedUrl) (isWrapper : Bool) (raw : String) :
    List String → Except Unit String
  | [] => .ok raw
  | param :: rest =>
    match getParam u.searchParams param with
    | none => unwrapLoop u isWrapper raw rest
    | some candidate =>
      if candidate == "" then unwrapLoop u isWrapper raw rest
      else
        match decodeURIComponent candidate with
        | none => .error ()
        | some decoded =>
          if strStartsWith decoded "http://" || strStartsWith decoded "https://" then
            if isWrapper then .ok decoded
            else if 2 ≤ (pathSegments u.pathname).length then .ok decoded
            else unwrapLoop u isWrapper raw rest
          else unwrapLoop u isWrapper raw rest

/-- `unwrapUrl(raw)`.  The first argument is the platform parse of `raw`
(`none`: the `new URL` constructor threw and the catch returns `raw`). -/
def unwrapUrl (parsed : Option ParsedUrl) (raw : String) : Except Unit String :=
  match parsed with
  | none => .ok raw
  | some u => unwrapLoop u (wrapperTest u.pathname) raw URL_PARAM_NAMES

/-- Declarative reading of one candidate (specification §4.2): present,
non-empty, decodable, absolutely http(s), and accepted by the wrapper
signature or the segment condition. -/
def qualifyingCandidate (u : ParsedUrl) (isWrapper : Bool) (param : String) :
    Option String :=
  match getParam u.searchParams param with
  | none => none
  | some candidate =>
    if candidate == "" then none
    else
      match decodeURIComponent candidate with
      | none => none
      | some decoded =>
        if (strStartsWith decoded "http://" || strStartsWith decoded "https://") &&
           (isWrapper || 2 ≤ (pathSegments u.pathname).length) then
          some decoded
        else none

/-- The first qualifying candidate in scan order, when any. -/
def firstQualifyingCandidate (u : ParsedUrl) : Option String :=
  URL_PARAM_NAMES.findSome? (qualifyingCandidate u (wrapperTest u.pathname))

-- -------------------------------------------------------------------------
-- Item type resolution
-- -------------------------------------------------------------------------

/-- `ITEM_TYPE_MAP` (both copies agree). -/
def ITEM_TYPE_MAP : List (String × String) :=
  [("article", "journalArticle"), ("journal", "journalArticle"), ("book", "book"),
   ("chapter", "bookSection"), ("conference", "conferencePaper"), ("thesis", "thesis"),
   ("report", "report"), ("webpage", "webpage"), ("blog", "blogPost"),
   ("news", "newspaperArticle"), ("magazine", "magazineArticle"), ("document", "document"),
   ("legal", "statute"), ("case", "case"), ("patent", "patent"),
   ("video", "videoRecording"), ("podcast", "podcast"), ("presentation", "presentation")]

/-- `resolveItemType(simple)`: `ITEM_TYPE_MAP[simple.toLowerCase()] || simple`. -/
def resolveItemType (simple : String) : String :=
  (ITEM_TYPE_MAP.lookup (lowerStr simple)).getD simple

-- -------------------------------------------------------------------------
-- Item summaries and listings (searchItems / getCollectionItems /
-- getRecentItems — the response-processing half is identical in both
-- copies; the request building is transport-side and not modelled).
-- -------------------------------------------------------------------------

/-- A `{ tag }` object as stored on items. -/
structure ZTag where
  tag : String
deriving Repr, DecidableEq

/-- A creator record as returned by the store. -/
structure Creator where
  name : Option String := none
  firstName : Option String := none
  lastName : Option String := none
deriving Repr, DecidableEq

/-- The `data` object of a raw store item, at the fields the summaries
read.  (The store always sends `data`; the `raw.data || raw` fallback is
therefore taken on `data`.) -/
structure RawData where
  key : Option String := none
  itemType : String := ""
  title : Option String := none
  creators : List Creator := []
  date : Option String := none
  tags : List ZTag := []
  url : Option String := none
deriving Repr, DecidableEq

/-- A raw store item. -/
structure RawItem where
  key : Option String := none
  data : RawData := {}
deriving Repr, DecidableEq

/-- The summary shape produced by `formatItemSummary`. -/
structure ItemSummary where
  key : Option String
  title : String
  itemType : String
  creators : Option String
  date : Option String
  tags : List String
  url : Option String
deriving Repr, DecidableEq

/-- One creator's display string:
`c.name ? c.name : (firstName || "") + " " + (lastName || "") . trim()`. -/
def creatorDisplay (c : Creator) : String :=
  if jsTruthy c.name then c.name.getD ""
  else trimStr ((c.firstName.getD "") ++ " " ++ (c.lastName.getD ""))

/-- `formatItemSummary(raw)`.  (When an item's `tags` entry has an empty
`tag` field the JS `t.tag || t` falls back to the object itself; the model
keeps the string, which no claim observes.) -/
def formatItemSummary (r : RawItem) : ItemSummary :=
  let d := r.data
  let creators := String.intercalate "; "
    ((d.creators.map creatorDisplay).filter (fun s => s != ""))
  { key := jsOr r.key d.key
  , title := (jsOr d.title (some "(untitled)")).getD ""
  , itemType := d.itemType
  , creators := jsOrNull (some creators)
  , date := jsOrNull d.date
  , tags := d.tags.map (fun t => t.tag)
  , url := jsOrNull d.url }

/-- A listing response from the store: the `Total-Results` header (the
store serialises a number; absence models a missing header) and the raw
item array. -/
structure ListResponse where
  totalResultsHeader : Option Nat := none
  raw : List RawItem := []

/-- The child filter all three listings apply:
`r.data?.itemType !== "attachment" && r.data?.itemType !== "note"`. -/
def keepTopLevel (r : RawItem) : Bool :=
  r.data.itemType != "attachment" && r.data.itemType != "note"

/-- A listing result (`{ items, totalResults, offset, limit }` or
`{ error }`). -/
structure SearchResult where
  items : Option (List ItemSummary) := none
  totalResults : Option Nat := none
  offset : Option Nat := none
  limit : Option Nat := none
  error : Option String := none
deriving Repr, DecidableEq

/-- `searchItems` — response half: filter out attachments and notes,
format, and report `Total-Results` when the header is present, else the
number of formatted items. -/
def searchItems (resp : Except String ListResponse) (limit offset : Nat) : SearchResult :=
  match resp with
  | .error msg => { error := some msg }
  | .ok r =>
    let items := (r.raw.filter keepTopLevel).map formatItemSummary
    { items := some items
    , totalResults := some (match r.totalResultsHeader with
        | some n => n
        | none => items.length)
    , offset := some offset
    , limit := some limit }

/-- `getCollectionItems` — same response processing as `searchItems`. -/
def getCollectionItems (resp : Except String ListResponse) (limit offset : Nat) : SearchResult :=
  match resp with
  | .error msg => { error := some msg }
  | .ok r =>
    let items := (r.raw.filter keepTopLevel).map formatItemSummary
    { items := some items
    , totalResults := some (match r.totalResultsHeader with
        | some n => n
        | none => items.length)
    , offset := some offset
    , limit := some limit }

/-- `getRecentItems` — returns `{ items }` only. -/
def getRecentItems (resp : Except String ListResponse) : SearchResult :=
  match resp with
  | .error msg => { error := some msg }
  | .ok r => { items := some ((r.raw.filter keepTopLevel).map formatItemSummary) }

-- -------------------------------------------------------------------------
-- Fulltext resolution
-- -------------------------------------------------------------------------

/-- A fulltext record from the store's fulltext endpoint. -/
structure FulltextData where
  content : String := ""
  indexedPages : Option Nat := none
  totalPages : Option Nat := none
  indexedChars : Option Nat := none
  totalChars : Option Nat := none
deriving Repr, DecidableEq

/-- The `data` object of a child item, at the fields the resolvers read. -/
structure ChildData where
  itemType : String := ""
  contentType : Option String := none
  filename : Option String := none
  title : Option String := none
deriving Repr, DecidableEq

/-- A child of the target item. -/
structure ChildItem where
  key : String
  data : ChildData := {}
deriving Repr, DecidableEq

/-- Metadata of the target item itself. -/
structure ItemMeta where
  itemType : String := ""
  contentType : Option String := none
  filename : Option String := none
  title : Option String := none
deriving Repr, DecidableEq

/-- Summary of one checked attachment (`attachments_checked`). -/
structure AttachmentSummary where
  key : String
  filename : Option String
  contentType : Option String
deriving Repr, DecidableEq

/-- The result shape of both fulltext resolvers (unused fields default to
absent). -/
structure FulltextResult where
  item_key : Option String := none
  attachment_key : Option String := none
  attachment_filename : Option String := none
  content : Option String := none
  contentType : Option String := none
  filename : Option String := none
  indexedPages : Option Nat := none
  totalPages : Option Nat := none
  indexedChars : Option Nat := none
  totalChars : Option Nat := none
  source : Option String := none
  message : Option String := none
  attachments_checked : Option (List AttachmentSummary) := none
  error : Option String := none
deriving Repr, DecidableEq

/-- The child filter both resolvers apply:
`c.data?.itemType === "attachment" && c.data?.contentType` (truthy). -/
def fulltextEligible (children : List ChildItem) : List ChildItem :=
  children.filter (fun c => c.data.itemType == "attachment" && jsTruthy c.data.contentType)

/-- `a.data?.contentType?.includes("pdf")` as a boolean. -/
def isPdfAtt (a : ChildItem) : Bool :=
  match a.data.contentType with
  | some s => containsStr s "pdf"
  | none => false

/-- One probe of the fulltext endpoint for one attachment; `none` models
404 / error / no (truthy) content, all of which make the loop continue. -/
def probeOne (ft : String → Option FulltextData) (att : ChildItem) :
    Option (ChildItem × FulltextData) :=
  match ft att.key with
  | some d => if d.content != "" then some (att, d) else none
  | none => none

/-- The sequential probe loop over attachments, returning on the first
truthy content. -/
def probeAttachments (ft : String → Option FulltextData) :
    List ChildItem → Option (ChildItem × FulltextData)
  | [] => none
  | att :: rest =>
    match ft att.key with
    | some d => if d.content != "" then some (att, d) else probeAttachments ft rest
    | none => probeAttachments ft rest

namespace Mcp

/-- `[...pdfAttachments, ...otherAttachments]` — the PDF-first probe order
of the packages copy. -/
def probeOrder (atts : List ChildItem) : List ChildItem :=
  atts.filter isPdfAtt ++ atts.filter (fun a => !isPdfAtt a)

/-- Store oracle for the packages-copy resolver: the target read, the
children read, and the fulltext endpoint (its `fetchFulltext` helper
returns `null` on 404, non-ok status or fetch error — all `none` here). -/
structure FulltextStore where
  itemRead : Except String ItemMeta
  children : Except String (List ChildItem)
  fulltext : String → Option FulltextData

/-- Success result for a directly-targeted attachment. -/
def directFoundResult (itemKey : String) (ft : FulltextData) : FulltextResult :=
  { item_key := some itemKey
  , content := some ft.content
  , indexedPages := ft.indexedPages
  , totalPages := ft.totalPages
  , indexedChars := ft.indexedChars
  , totalChars := ft.totalChars
  , source := some "fulltext_api" }

/-- Absent-content result for a directly-targeted attachment (informative
message, no error; the source message's quotes around the content type are
omitted here). -/
def attachmentAbsentResult (itemKey contentType filename : String) : FulltextResult :=
  { item_key := some itemKey
  , content := none
  , contentType := some contentType
  , filename := some filename
  , message := some (if containsStr contentType "pdf" then
      "PDF has not been indexed by Zotero. Full-text indexing happens in Zotero desktop and must sync to the cloud. Try: 1) Open Zotero desktop, 2) Right-click the PDF → Reindex Item, 3) Sync your library."
    else
      "Attachment type " ++ contentType ++ " does not support full-text extraction.") }

/-- Success result from a child-attachment probe. -/
def foundResult (itemKey : String) (att : ChildItem) (ft : FulltextData) : FulltextResult :=
  { item_key := some itemKey
  , attachment_key := some att.key
  , attachment_filename := jsOr att.data.filename att.data.title
  , content := some ft.content
  , indexedPages := ft.indexedPages
  , totalPages := ft.totalPages
  , indexedChars := ft.indexedChars
  , totalChars := ft.totalChars
  , source := some "child_attachment_fulltext" }

/-- Terminal result for a parent with no eligible attachments. -/
def noAttachmentsResult (itemKey : String) : FulltextResult :=
  { item_key := some itemKey
  , content := none
  , message := some "This item has no attachments. Full-text is only available for items with PDF or text attachments." }

/-- Terminal result after an exhausted probe (content absent, summary of
everything checked, informative message). -/
def exhaustedResult (itemKey : String) (atts : List ChildItem) : FulltextResult :=
  { item_key := some itemKey
  , content := none
  , attachments_checked := some (atts.map (fun a =>
      { key := a.key
      , filename := jsOr a.data.filename a.data.title
      , contentType := a.data.contentType }))
  , message := some "No full-text content available. PDFs must be indexed by Zotero desktop before full-text is accessible via the API. Try: 1) Open Zotero desktop, 2) Right-click the item → Reindex Item, 3) Sync your library, then try again." }

/-- `getItemFulltext` of `packages/mcp/src/zotero.ts`. -/
def getItemFulltext (store : FulltextStore) (itemKey : String) : FulltextResult :=
  match store.itemRead with
  | .error msg => { error := some ("Failed to get fulltext: " ++ msg) }
  | .ok meta =>
    if meta.itemType == "attachment" then
      let contentType := meta.contentType.getD ""
      let filename := (jsOr meta.filename (jsOr meta.title (some "unknown"))).getD ""
      match store.fulltext itemKey with
      | some ft =>
        if ft.content != "" then directFoundResult itemKey ft
        else attachmentAbsentResult itemKey contentType filename
      | none => attachmentAbsentResult itemKey contentType filename
    else
      match store.children with
      | .error msg => { error := some ("Failed to get fulltext: " ++ msg) }
      | .ok cs =>
        let attachments := fulltextEligible cs
        if attachments.isEmpty then noAttachmentsResult itemKey
        else
          match probeAttachments store.fulltext (probeOrder attachments) with
          | some (att, ft) => foundResult itemKey att ft
          | none => exhaustedResult itemKey attachments

end Mcp

namespace Legacy

/-- Store oracle for the worker-copy (`src/zotero.ts`) resolver: the
direct fulltext probe on the target key itself (a throw or untruthy
content both fall through — `none` models the throw), the children read,
and the per-attachment fulltext probe. -/
structure FulltextStore where
  direct : Option FulltextData
  children : Except String (List ChildItem)
  fulltext : String → Option FulltextData

/-- The child-probing phase of the legacy resolver: attachments are probed
in the store's order, with no PDF prioritisation. -/
def probePhase (store : FulltextStore) (itemKey : String) : FulltextResult :=
  match store.children with
  | .error msg => { error := some msg }
  | .ok cs =>
    match probeAttachments store.fulltext (fulltextEligible cs) with
    | some (att, ft) =>
      { item_key := some itemKey
      , attachment_key := some att.key
      , content := some ft.content
      , source := some "child_attachment_fulltext" }
    | none =>
      { item_key := some itemKey
      , content := none
      , message := some "No full-text content available for this item." }

/-- `getItemFulltext` of `src/zotero.ts` (legacy copy): direct probe on
the item first, then the children in store order. -/
def getItemFulltext (store : FulltextStore) (itemKey : String) : FulltextResult :=
  match store.direct with
  | some ft =>
    if ft.content != "" then
      { item_key := some itemKey, content := some ft.content, source := some "fulltext_api" }
    else probePhase store itemKey
  | none => probePhase store itemKey

end Legacy

-- -------------------------------------------------------------------------
-- Attachment upload (attachPdfFromUrl / attachSnapshot — identical in
-- both copies up to the libraryType plumbing)
-- -------------------------------------------------------------------------

/-- The observable part of the source `fetch` response. -/
structure FetchResponse where
  ok : Bool := true
  status : Nat := 200
  statusText : String := ""
  contentType : Option String := none
  contentDisposition : Option String := none
  bodyBytesLen : Nat := 0
  bodyText : String := ""
deriving Repr, DecidableEq

/-- The observable part of the upload response:
`uploadOk = resp?.response?.ok ?? resp?.ok` (tri-state) and the status /
serialised body used in the failure message. -/
structure UploadResp where
  ok : Option Bool := none
  status : Option Nat := none
  bodyRepr : String := ""
deriving Repr, DecidableEq

/-- The remote requests an attachment operation issues, in order. -/
inductive AttachEvent where
  | fetchIssued
  | registerIssued
  | uploadIssued (key : String)
deriving Repr, DecidableEq

/-- Result shape of both attachment operations. -/
structure AttachResult where
  success : Bool
  error : Option String := none
  attachment_key : Option String := none
  filename : Option String := none
  title : Option String := none
  size_bytes : Option Nat := none
deriving Repr, DecidableEq

/-- Oracle for one attachment operation: the platform parse of the source
URL (consumed by `unwrapUrl`), the source fetch, the registration post
(`.ok (some key)`: the attachment item was created; `.ok none`:
`getEntityByIndex(0)` was empty, with `registerRaw` the serialised
response; `.error`: the post threw) and the binary upload. -/
structure AttachOracle where
  parsed : Option ParsedUrl := none
  fetchResult : Except String FetchResponse
  registerResult : Except String (Option String)
  registerRaw : String := ""
  uploadResult : Except String UploadResp

/-- `${uploadStatus}` interpolation (undefined prints as "undefined"). -/
def statusRepr : Option Nat → String
  | some n => natToStr n
  | none => "undefined"

/-- Filename derivation for a PDF: explicit name, else the
content-disposition filename (quotes stripped, trimmed), else the URL's
last path segment with a forced `.pdf` suffix. -/
def derivePdfFilename (explicit : Option String) (cd pdfUrl : String) : String :=
  if jsTruthy explicit then explicit.getD ""
  else if containsStr cd "filename=" then
    trimStr (String.mk (((splitStr cd "filename=").getLastD "").data.filter
      (fun c => !(c == '\'' || c == '"'))))
  else
    let f := (splitStr ((splitStr pdfUrl "/").getLastD "") "?").headD ""
    if strEndsWith f ".pdf" then f else "attachment.pdf"

/-- The body of `attachPdfFromUrl` after the URL unwrap (everything inside
the function's try/catch). -/
def attachPdfBody (o : AttachOracle) (pdfUrl : String) (filename : Option String) :
    AttachResult × List AttachEvent :=
  match o.fetchResult with
  | .error msg =>
    ({ success := false, error := some ("Failed to attach PDF: " ++ msg) }, [.fetchIssued])
  | .ok resp =>
    if !resp.ok then
      ({ success := false
       , error := some ("Failed to download PDF: HTTP " ++ natToStr resp.status ++ " " ++ resp.statusText) },
       [.fetchIssued])
    else if resp.bodyBytesLen == 0 then
      ({ success := false, error := some "Downloaded PDF is empty (0 bytes)" }, [.fetchIssued])
    else
      let fname := derivePdfFilename filename (resp.contentDisposition.getD "") pdfUrl
      match o.registerResult with
      | .error msg =>
        ({ success := false, error := some ("Failed to attach PDF: " ++ msg) },
         [.fetchIssued, .registerIssued])
      | .ok none =>
        ({ success := false
         , error := some ("Failed to create attachment item. API response: " ++ o.registerRaw) },
         [.fetchIssued, .registerIssued])
      | .ok (some key) =>
        match o.uploadResult with
        | .error msg =>
          ({ success := false, error := some ("Failed to attach PDF: " ++ msg) },
           [.fetchIssued, .registerIssued, .uploadIssued key])
        | .ok up =>
          if up.ok == some false then
            ({ success := false
             , error := some ("Attachment item created (" ++ key ++
                 ") but file upload failed. Status: " ++ statusRepr up.status ++
                 ". Response: " ++ up.bodyRepr)
             , attachment_key := some key },
             [.fetchIssued, .registerIssued, .uploadIssued key])
          else
            ({ success := true
             , filename := some fname
             , size_bytes := some resp.bodyBytesLen
             , attachment_key := some key },
             [.fetchIssued, .registerIssued, .uploadIssued key])

/-- `attachPdfFromUrl`.  `unwrapUrl` runs before the try/catch, so its
`URIError` (`Except.error ()`) escapes the function. -/
def attachPdfFromUrl (o : AttachOracle) (pdfUrl : String) (filename : Option String) :
    Except Unit (AttachResult × List AttachEvent) :=
  match unwrapUrl o.parsed pdfUrl with
  | .error e => .error e
  | .ok u => .ok (attachPdfBody o u filename)

/-- `\w` or whitespace or `-` or `.` — the characters `safeName` keeps. -/
def isSafeNameChar (c : Char) : Bool :=
  c.isAlphanum || c == '_' || isJsSpace c || c == '-' || c == '.'

/-- `title.replace(/[^\w\s\-.]/g, "").slice(0, 80).trim() || "snapshot"`. -/
def snapshotSafeName (title : String) : String :=
  let t := trimStr (String.mk ((title.data.filter isSafeNameChar).take 80))
  if t == "" then "snapshot" else t

/-- `pat.isPrefixOf` of `l` lower-cased: case-insensitive prefix test for
a lowercase ASCII pattern. -/
def ciPrefix (pat : List Char) (l : List Char) : Bool :=
  pat.isPrefixOf (l.map Char.toLower)

/-- Drop `[^>]*>` — everything up to and including the first `>`. -/
def dropThroughGt : List Char → Option (List Char)
  | [] => none
  | c :: rest => if c == '>' then some rest else dropThroughGt rest

/-- Non-greedy capture up to the first case-insensitive occurrence of
`pat` (given lower-case). -/
def captureUntil (pat : List Char) : List Char → Option (List Char)
  | [] => none
  | c :: rest =>
    if ciPrefix pat (c :: rest) then some []
    else (captureUntil pat rest).map (fun cap => c :: cap)

/-- `html.match(/<title[^>]*>([\s\S]*?)<\/title>/i)` — the captured group
of the first position where the whole pattern matches. -/
def titleMatch : List Char → Option (List Char)
  | [] => none
  | c :: rest =>
    if ciPrefix "<title".data (c :: rest) then
      match dropThroughGt ((c :: rest).drop 6) with
      | some afterTag =>
        match captureUntil "</title>".data afterTag with
        | some cap => some cap
        | none => titleMatch rest
      | none => titleMatch rest
    else titleMatch rest

/-- UTF-8 byte length of one character (`Buffer.from(html, "utf-8").length`). -/
def charUtf8Size (c : Char) : Nat :=
  if c.toNat < 0x80 then 1 else if c.toNat < 0x800 then 2
  else if c.toNat < 0x10000 then 3 else 4

/-- UTF-8 byte length of a string. -/
def utf8Len (s : String) : Nat := s.data.foldl (fun n c => n + charUtf8Size c) 0

/-- The body of `attachSnapshot` after the URL unwrap. -/
def attachSnapshotBody (o : AttachOracle) (url : String) (title : Option String) :
    AttachResult × List AttachEvent :=
  match o.fetchResult with
  | .error msg =>
    ({ success := false, error := some ("Failed to attach snapshot: " ++ msg) }, [.fetchIssued])
  | .ok resp =>
    if !resp.ok then
      ({ success := false
       , error := some ("Failed to fetch page: HTTP " ++ natToStr resp.status ++ " " ++ resp.statusText) },
       [.fetchIssued])
    else
      let html := resp.bodyText
      if html == "" then
        ({ success := false, error := some "Fetched page is empty (0 bytes)" }, [.fetchIssued])
      else
        let t := if jsTruthy title then title.getD ""
          else match titleMatch html.data with
            | some cap => trimStr (String.mk cap)
            | none => url
        let fname := snapshotSafeName t ++ ".html"
        match o.registerResult with
        | .error msg =>
          ({ success := false, error := some ("Failed to attach snapshot: " ++ msg) },
           [.fetchIssued, .registerIssued])
        | .ok none =>
          ({ success := false
           , error := some ("Failed to create attachment item. API response: " ++ o.registerRaw) },
           [.fetchIssued, .registerIssued])
        | .ok (some key) =>
          match o.uploadResult with
          | .error msg =>
            ({ success := false, error := some ("Failed to attach snapshot: " ++ msg) },
             [.fetchIssued, .registerIssued, .uploadIssued key])
          | .ok up =>
            if up.ok == some false then
              ({ success := false
               , error := some ("Attachment item created (" ++ key ++
                   ") but file upload failed. Status: " ++ statusRepr up.status ++
                   ". Response: " ++ up.bodyRepr)
               , attachment_key := some key },
               [.fetchIssued, .registerIssued, .uploadIssued key])
            else
              ({ success := true
               , filename := some fname
               , title := some t
               , size_bytes := some (utf8Len html)
               , attachment_key := some key },
               [.fetchIssued, .registerIssued, .uploadIssued key])

/-- `attachSnapshot`.  As for the PDF path, `unwrapUrl` runs before the
try/catch. -/
def attachSnapshot (o : AttachOracle) (url : String) (title : Option String) :
    Except Unit (AttachResult × List AttachEvent) :=
  match unwrapUrl o.parsed url with
  | .error e => .error e
  | .ok u => .ok (attachSnapshotBody o u title)

-- -------------------------------------------------------------------------
-- createItem
-- -------------------------------------------------------------------------

/-- The createItem inputs the persist/attach sequencing reads (the other
metadata fields only flow into the template and are not inspected by any
claim). -/
structure CreateParams where
  title : String := ""
  itemType : Option String := none
  pdfUrl : Option String := none
  snapshotUrl : Option String := none
deriving Repr, DecidableEq

/-- Oracle for `createItem`: template acquisition, the item post
(`.ok (some key)`: entity created), and the outcome of the one attachment
operation it may invoke (`Except.error ()` models that operation throwing
— only the `URIError` escaping `unwrapUrl` can). -/
structure CreateOracle where
  template : Except String Unit
  postItem : Except String (Option String)
  postRaw : String := ""
  attachPdf : Except Unit AttachResult := .ok { success := true }
  attachSnapshot : Except Unit AttachResult := .ok { success := true }

/-- Result shape of `createItem`. -/
structure CreateResult where
  success : Bool
  item_key : Option String := none
  message : Option String := none
  error : Option String := none
  pdf_attachment : Option AttachResult := none
  snapshot_attachment : Option AttachResult := none
deriving Repr, DecidableEq

/-- `createItem` (identical sequencing in both copies): resolve the type,
acquire the template, post, then — on success — run at most one attachment
operation, PDF taking priority, nesting its result.  A thrown attachment
operation is caught by the outer catch and yields an overall failure whose
error is the `URIError` message. -/
def createItem (o : CreateOracle) (p : CreateParams) : CreateResult :=
  let zoteroType := resolveItemType (p.itemType.getD "webpage")
  match o.template with
  | .error msg =>
    { success := false, error := some ("Invalid item type " ++ zoteroType ++ ": " ++ msg) }
  | .ok _ =>
    match o.postItem with
    | .error msg => { success := false, error := some msg }
    | .ok none => { success := false, error := some ("Failed to create item: " ++ o.postRaw) }
    | .ok (some itemKey) =>
      if jsTruthy p.pdfUrl then
        match o.attachPdf with
        | .error _ => { success := false, error := some "URI malformed" }
        | .ok ares =>
          { success := true
          , item_key := some itemKey
          , message := some ("Created " ++ zoteroType ++ ": " ++ p.title)
          , pdf_attachment := some ares }
      else if jsTruthy p.snapshotUrl then
        match o.attachSnapshot with
        | .error _ => { success := false, error := some "URI malformed" }
        | .ok ares =>
          { success := true
          , item_key := some itemKey
          , message := some ("Created " ++ zoteroType ++ ": " ++ p.title)
          , snapshot_attachment := some ares }
      else
        { success := true
        , item_key := some itemKey
        , message := some ("Created " ++ zoteroType ++ ": " ++ p.title) }

-- -------------------------------------------------------------------------
-- updateItem (packages copy; the legacy copy computes the same tag set
-- and sends it inside a full-data patch with the same freshly read
-- version)
-- -------------------------------------------------------------------------

/-- Error kinds a remote call can fail with.  The code only ever observes
`err.message`; the constructors record what actually happened remotely. -/
inductive ZoteroFailure where
  | conflict (msg : String)
  | network (msg : String)
  | rejection (msg : String)
deriving Repr, DecidableEq

/-- The message the thrown error carries. -/
def ZoteroFailure.message : ZoteroFailure → String
  | .conflict m => m
  | .network m => m
  | .rejection m => m

/-- The stored `data` of an item, at the fields `updateItem` touches. -/
structure ItemData where
  title : String := ""
  abstractNote : String := ""
  date : String := ""
  extra : String := ""
  tags : List ZTag := []
  collections : List String := []
deriving Repr, DecidableEq

/-- A raw item read: the store-assigned version plus `data`. -/
structure ItemRaw where
  version : Nat
  data : ItemData := {}
deriving Repr, DecidableEq

/-- The change set accepted by `updateItem`. -/
structure UpdateChanges where
  title : Option String := none
  abstract : Option String := none
  date : Option String := none
  extra : Option String := none
  tags : Option (List String) := none
  add_tags : Option (List String) := none
  remove_tags : Option (List String) := none
  collections : Option (List String) := none
  add_collections : Option (List String) := none
  remove_collections : Option (List String) := none
deriving Repr, DecidableEq

/-- The partial patch object sent to the store. -/
structure PatchData where
  title : Option String := none
  abstractNote : Option String := none
  date : Option String := none
  extra : Option String := none
  tags : Option (List ZTag) := none
  collections : Option (List String) := none
deriving Repr, DecidableEq

/-- `for (const t of adds) if (!updated.includes(t)) updated.push(t)`. -/
def addMissing (base adds : List String) : List String :=
  adds.foldl (fun acc t => if acc.contains t then acc else acc ++ [t]) base

/-- The pure reconciliation of `updateItem`: scalars overwrite when
present; tags (and collections) use a replacement list when given, else
union with the add-list then subtraction of the remove-list against the
freshly read current value. -/
def buildPatch (currentData : ItemData) (changes : UpdateChanges) : PatchData :=
  { title := changes.title
  , abstractNote := changes.abstract
  , date := changes.date
  , extra := changes.extra
  , tags :=
      match changes.tags with
      | some ts => some (ts.map (fun t => ⟨t⟩))
      | none =>
        if changes.add_tags.isSome || changes.remove_tags.isSome then
          let existingTags := currentData.tags.map (fun t => t.tag)
          let updated := addMissing existingTags (changes.add_tags.getD [])
          let updated := match changes.remove_tags with
            | some rems => updated.filter (fun t => !(rems.contains t))
            | none => updated
          some (updated.map (fun t => ⟨t⟩))
        else none
  , collections :=
      match changes.collections with
      | some cs => some cs
      | none =>
        if changes.add_collections.isSome || changes.remove_collections.isSome then
          let updated := addMissing currentData.collections (changes.add_collections.getD [])
          let updated := match changes.remove_collections with
            | some rems => updated.filter (fun c => !(rems.contains c))
            | none => updated
          some updated
        else none }

/-- The tag names an item carries after the patch is applied (the store
keeps the current tags when the patch has no `tags` key). -/
def finalTagNames (d : ItemData) (ch : UpdateChanges) : List String :=
  match (buildPatch d ch).tags with
  | some ts => ts.map (fun t => t.tag)
  | none => d.tags.map (fun t => t.tag)

/-- Store oracle for `updateItem`: the item read and the versioned patch
application. -/
structure UpdateStore where
  readItem : Except ZoteroFailure ItemRaw
  applyPatch : Nat → PatchData → Except ZoteroFailure Unit

/-- The remote requests `updateItem` issues, in order. -/
inductive UpdateEvent where
  | read
  | patched (version : Nat) (patch : PatchData)
deriving Repr, DecidableEq

/-- Result shape of `updateItem`. -/
structure UpdateResult where
  success : Bool
  item_key : Option String := none
  message : Option String := none
  error : Option String := none
deriving Repr, DecidableEq

/-- `updateItem`: read the item, reconcile against the freshly read data,
apply the patch once with the freshly read version, and convert any throw
into `{ success: false, error: err.message }`. -/
def updateItem (store : UpdateStore) (itemKey : String) (changes : UpdateChanges) :
    UpdateResult × List UpdateEvent :=
  match store.readItem with
  | .error e => ({ success := false, error := some e.message }, [.read])
  | .ok raw =>
    let version := raw.version
    let patch := buildPatch raw.data changes
    match store.applyPatch version patch with
    | .error e =>
      ({ success := false, error := some e.message }, [.read, .patched version patch])
    | .ok _ =>
      ({ success := true
       , item_key := some itemKey
       , message := some ("Item " ++ itemKey ++ " updated") },
       [.read, .patched version patch])

-- -------------------------------------------------------------------------
-- getLibraryStats (packages copy only)
-- -------------------------------------------------------------------------

/-- A raw tag entry from the store. -/
structure RawTag where
  tag : String
  meta_numItems : Option Nat := none
deriving Repr, DecidableEq

/-- A `{ tag, numItems }` entry as `listTags` returns it. -/
structure TagEntry where
  tag : String
  numItems : Nat
deriving Repr, DecidableEq

/-- Result shape of `listTags` (it catches its own errors). -/
structure TagsResult where
  tags : Option (List TagEntry) := none
  offset : Option Nat := none
  limit : Option Nat := none
  error : Option String := none
deriving Repr, DecidableEq

/-- `listTags`: maps the raw entries (`t.meta?.numItems || 0`) or catches
the query's failure into `{ error }`. -/
def listTags (q : Except String (List RawTag)) (limit offset : Nat) : TagsResult :=
  match q with
  | .error msg => { error := some msg }
  | .ok raw =>
    { tags := some (raw.map (fun t => { tag := t.tag, numItems := t.meta_numItems.getD 0 }))
    , offset := some offset
    , limit := some limit }

/-- A raw collection from the store. -/
structure RawCollection where
  key : String
  data_name : String := ""
  data_parentCollection : Option String := none
deriving Repr, DecidableEq

/-- A collection summary (`{ key, name, parent }`). -/
structure CollectionSummary where
  key : String
  name : String
  parent : Option String
deriving Repr, DecidableEq

/-- `listCollections` — it has no try/catch of its own, so a query failure
propagates as a throw. -/
def listCollections (q : Except String (List RawCollection)) :
    Except String (List CollectionSummary) :=
  q.map (fun raw => raw.map (fun c =>
    { key := c.key, name := c.data_name, parent := jsOrNull c.data_parentCollection }))

/-- The most-recent-item probe: `Total-Results` header plus the raw items. -/
structure StatsItem where
  data_title : Option String := none
  data_dateModified : Option String := none
deriving Repr, DecidableEq

/-- Response of the item probe. -/
structure ItemsProbe where
  totalResultsHeader : Option Nat := none
  raw : List StatsItem := []
deriving Repr, DecidableEq

/-- `{ title, date }` of the most recently modified item. -/
structure LastModified where
  title : String
  date : Option String
deriving Repr, DecidableEq

/-- Oracle for the three concurrent read queries of `getLibraryStats`. -/
structure StatsOracle where
  itemsQuery : Except String ItemsProbe
  collectionsQuery : Except String (List RawCollection)
  tagsQuery : Except String (List RawTag)

/-- Result shape of `getLibraryStats`. -/
structure StatsResult where
  total_items : Option Nat := none
  total_collections : Option Nat := none
  total_tags : Option Nat := none
  collections : Option (List (String × String)) := none
  top_tags : Option (List TagEntry) := none
  last_modified_item : Option LastModified := none
  error : Option String := none
deriving Repr, DecidableEq

/-- Stable insert for the descending-by-usage sort. -/
def insertDesc (x : TagEntry) : List TagEntry → List TagEntry
  | [] => [x]
  | y :: ys => if y.numItems ≤ x.numItems then x :: y :: ys else y :: insertDesc x ys

/-- `sort((a, b) => b.numItems - a.numItems)` — a stable descending sort,
as ECMAScript's `Array.prototype.sort` is. -/
def sortTagsDesc : List TagEntry → List TagEntry
  | [] => []
  | x :: rest => insertDesc x (sortTagsDesc rest)

/-- `getLibraryStats`: three queries fan out; a rejection of the item
probe or of `listCollections` rejects the `Promise.all` and is caught into
`{ error }` (the model surfaces the first rejection in argument order),
while `listTags` never rejects — its `{ error }` result flows on and
`tagsResult.tags || []` silently becomes the empty list. -/
def getLibraryStats (o : StatsOracle) : StatsResult :=
  match o.itemsQuery with
  | .error msg => { error := some msg }
  | .ok itemsResp =>
    match listCollections o.collectionsQuery with
    | .error msg => { error := some msg }
    | .ok collectionsResult =>
      let tagsResult := listTags o.tagsQuery 25 0
      let totalItems := itemsResp.totalResultsHeader.getD 0
      let lastModified := itemsResp.raw.head?.map (fun r =>
        { title := (jsOr r.data_title (some "(untitled)")).getD ""
        , date := jsOrNull r.data_dateModified })
      let topTags := (sortTagsDesc (tagsResult.tags.getD [])).take 15
      { total_items := some totalItems
      , total_collections := some collectionsResult.length
      , total_tags := some topTags.length
      , collections := some (collectionsResult.map (fun c => (c.key, c.name)))
      , top_tags := some topTags
      , last_modified_item := lastModified
      , error := none }

-- =========================================================================
-- Helper lemmas
-- =========================================================================

/-- Association-list lookups only ever return pairs of the list. -/
theorem lookup_forall {α β : Type} [BEq α] [LawfulBEq α]
    (l : List (α × β)) (P : α → β → Prop) (h : ∀ p ∈ l, P p.1 p.2) :
    ∀ k v, l.lookup k = some v → P k v := by
  induction l with
  | nil => intro k v hkv; simp [List.lookup] at hkv
  | cons p rest ih =>
    intro k v hkv
    obtain ⟨a, b⟩ := p
    simp only [List.lookup] at hkv
    by_cases hk : k == a
    · rw [hk] at hkv
      simp only [Option.some.injEq] at hkv
      subst hkv
      have hpa := h (a, b) (List.mem_cons_self _ _)
      simpa [eq_of_beq hk] using hpa
    · rw [Bool.not_eq_true] at hk
      rw [hk] at hkv
      simp only at hkv
      exact ih (fun q hq => h q (List.mem_cons_of_mem _ hq)) k v hkv

/-- Every key of the type table is already lower-case, and every canonical
value resolves to itself. -/
theorem itemTypeMap_fixed :
    ∀ p ∈ ITEM_TYPE_MAP, lowerStr p.1 = p.1 ∧ resolveItemType p.2 = p.2 := by decide

-- =========================================================================
-- C9 — resolveItemType
-- =========================================================================

/-- C9: resolveItemType is case-insensitive and idempotent on every
supported friendly type name (a name whose lower-casing is in the table),
and is the identity on every name not in the friendly-name table. -/
theorem resolveItemType_props :
    (∀ s : String, (ITEM_TYPE_MAP.lookup (lowerStr s)).isSome →
      resolveItemType s = resolveItemType (lowerStr s) ∧
      resolveItemType (resolveItemType s) = resolveItemType s) ∧
    (∀ s : String, ITEM_TYPE_MAP.lookup (lowerStr s) = none → resolveItemType s = s) := by
  constructor
  · intro s hs
    obtain ⟨v, hv⟩ := Option.isSome_iff_exists.mp hs
    have hp := lookup_forall ITEM_TYPE_MAP
      (fun k v => lowerStr k = k ∧ resolveItemType v = v) itemTypeMap_fixed _ _ hv
    have h1 : resolveItemType s = v := by simp [resolveItemType, hv]
    have h2 : resolveItemType (lowerStr s) = v := by
      unfold resolveItemType
      rw [hp.1, hv]
      rfl
    exact ⟨h1.trans h2.symm, by rw [h1, hp.2]⟩
  · intro s hs
    simp [resolveItemType, hs]

/-- C9 witness: the properties at the concrete input "Article". -/
theorem resolveItemType_props_witness :
    resolveItemType "Article" = resolveItemType (lowerStr "Article") ∧
    resolveItemType (resolveItemType "Article") = resolveItemType "Article" ∧
    resolveItemType "mysteryType" = "mysteryType" :=
  ⟨(resolveItemType_props.1 "Article" (by decide)).1,
   (resolveItemType_props.1 "Article" (by decide)).2,
   resolveItemType_props.2 "mysteryType" (by decide)⟩

-- =========================================================================
-- C7 — unwrapUrl totality (code bug: decodeURIComponent can throw)
-- =========================================================================

/-- C7: `unwrapUrl` is claimed total; in fact the `decodeURIComponent`
call sits outside the function's try/catch, so a candidate query value
that decodes to a lone `%` (raw input `...?url=%25`) makes the builtin
throw `URIError` and the function propagates it.  Parse failure, by
contrast, is caught and returns the input unchanged. -/
theorem unwrapUrl_uriError_bug :
    unwrapUrl (some { pathname := "/fetch.php", searchParams := [("url", "%")] })
      "https://example.com/fetch.php?url=%25" = .error () ∧
    decodeURIComponent "%" = none ∧
    (∀ raw : String, unwrapUrl none raw = .ok raw) :=
  ⟨by decide, by decide, fun _ => rfl⟩

-- =========================================================================
-- C6 — unwrapUrl candidate scanning
-- =========================================================================

/-- The scanning loop returns the first qualifying candidate (or the raw
input when none qualifies), provided every present non-empty candidate
decodes. -/
theorem unwrapLoop_findSome (u : ParsedUrl) (isW : Bool) (raw : String) :
    ∀ L : List String,
      (∀ name ∈ L, ∀ c, getParam u.searchParams name = some c → c ≠ "" →
        (decodeURIComponent c).isSome) →
      unwrapLoop u isW raw L = .ok ((L.findSome? (qualifyingCandidate u isW)).getD raw) := by
  intro L
  induction L with
  | nil => intro _; rfl
  | cons param rest ih =>
    intro hdec
    have hrest : ∀ name ∈ rest, ∀ c, getParam u.searchParams name = some c → c ≠ "" →
        (decodeURIComponent c).isSome :=
      fun name hn => hdec name (List.mem_cons_of_mem _ hn)
    rw [unwrapLoop, List.findSome?_cons]
    cases hg : getParam u.searchParams param with
    | none => simp [qualifyingCandidate, hg, ih hrest]
    | some candidate =>
      by_cases hc : candidate == ""
      · simp [qualifyingCandidate, hg, hc, ih hrest]
      · have hdc := hdec param (List.mem_cons_self _ _) candidate hg (by simpa using hc)
        obtain ⟨decoded, hdecoded⟩ := Option.isSome_iff_exists.mp hdc
        simp only [qualifyingCandidate, hg, hc, hdecoded]
        by_cases habs : strStartsWith decoded "http://" || strStartsWith decoded "https://"
        · by_cases hq : isW || decide (2 ≤ (pathSegments u.pathname).length)
          · rcases Bool.or_eq_true _ _ |>.mp hq with hw | hseg
            · simp [habs, hq, hw]
            · by_cases hw : isW
              · simp [habs, hq, hw]
              · simp [habs, hq, hw, of_decide_eq_true hseg]
          · have hw : isW = false := by
              cases hisW : isW
              · rfl
              · exact absurd (by simp [hisW]) hq
            have hseg : ¬ (2 ≤ (pathSegments u.pathname).length) := by
              intro hx
              exact hq (by simp [hw, hx])
            simpa [habs, hq, hw, hseg] using ih hrest
        · simp [habs, ih hrest]

/-- C6 (amended): for every parseable URL whose present non-empty
candidate parameters all decode, `unwrapUrl` scans `url, source, target,
uri, link, src` in order and returns the first candidate that decodes to
an absolute http(s) URL and is accepted — immediately under a wrapper
signature, else when the path (one leading and one trailing slash
stripped, split on `/`, empty segments included) has at least two
segments; with no qualifying candidate the input is returned unchanged. -/
theorem unwrapUrl_first_qualifying (u : ParsedUrl) (raw : String)
    (hdec : ∀ name ∈ URL_PARAM_NAMES, ∀ c, getParam u.searchParams name = some c → c ≠ "" →
      (decodeURIComponent c).isSome) :
    unwrapUrl (some u) raw = .ok ((firstQualifyingCandidate u).getD raw) :=
  unwrapLoop_findSome u (wrapperTest u.pathname) raw URL_PARAM_NAMES hdec

/-- C6 counterexample: the path `/a//` has a single non-empty segment and
no wrapper signature, yet the code unwraps, because the segment list it
counts (`"a/".split("/") = ["a", ""]`) retains the empty segment. -/
theorem unwrapUrl_segments_cex :
    unwrapUrl (some { pathname := "/a//", searchParams := [("url", "https://inner.example/x")] })
      "https://host.example/a//?url=https%3A%2F%2Finner.example%2Fx"
      = .ok "https://inner.example/x" ∧
    wrapperTest "/a//" = false ∧
    (nonEmptySegments "/a//").length = 1 ∧
    pathSegments "/a//" = ["a", ""] ∧
    "https://inner.example/x" ≠ "https://host.example/a//?url=https%3A%2F%2Finner.example%2Fx" :=
  ⟨by decide, by decide, by decide, by decide, by decide⟩

-- =========================================================================
-- C8 — updateItem tag reconciliation
-- =========================================================================

/-- Unfolding of the add-loop one element at a time. -/
theorem addMissing_cons (base : List String) (a : String) (rest : List String) :
    addMissing base (a :: rest) =
      addMissing (if base.contains a then base else base ++ [a]) rest := by
  simp only [addMissing, List.foldl_cons]

/-- Membership in the result of the add-loop. -/
theorem mem_addMissing (t : String) :
    ∀ (adds base : List String), t ∈ addMissing base adds ↔ t ∈ base ∨ t ∈ adds := by
  intro adds
  induction adds with
  | nil => intro base; simp [addMissing]
  | cons a rest ih =>
    intro base
    rw [addMissing_cons]
    by_cases h : base.contains a
    · rw [if_pos h, ih base]
      have ha : a ∈ base := List.elem_iff.mp h
      constructor
      · rintro (hb | hr)
        · exact Or.inl hb
        · exact Or.inr (List.mem_cons_of_mem _ hr)
      · rintro (hb | hr)
        · exact Or.inl hb
        · rcases List.mem_cons.mp hr with rfl | hr2
          · exact Or.inl ha
          · exact Or.inr hr2
    · rw [if_neg h, ih (base ++ [a])]
      simp [List.mem_append, List.mem_cons, or_assoc]

/-- Adding only already-present names is a no-op, as a list equality. -/
theorem addMissing_of_subset :
    ∀ (adds base : List String), (∀ t ∈ adds, t ∈ base) → addMissing base adds = base := by
  intro adds
  induction adds with
  | nil => intro base _; rfl
  | cons a rest ih =>
    intro base h
    rw [addMissing_cons]
    have ha : base.contains a = true := List.elem_iff.mpr (h a (List.mem_cons_self _ _))
    rw [if_pos ha]
    exact ih base (fun t ht => h t (List.mem_cons_of_mem _ ht))

/-- Wrapping names as tag objects and projecting back is the identity. -/
theorem map_tag_mk (l : List String) :
    (l.map (fun t => (⟨t⟩ : ZTag))).map (fun zt => zt.tag) = l := by
  induction l with
  | nil => rfl
  | cons a rest ih => simp [ih]

/-- In add/remove mode the final tag names are the add-union filtered by
the remove-list (when there is no remove-list the filter predicate is
constantly true). -/
theorem finalTagNames_addRemove (d : ItemData) (ch : UpdateChanges)
    (hnone : ch.tags = none) (hsome : ch.add_tags.isSome ∨ ch.remove_tags.isSome) :
    finalTagNames d ch =
      (addMissing (d.tags.map (fun zt => zt.tag)) (ch.add_tags.getD [])).filter
        (fun t => !((ch.remove_tags.getD []).contains t)) := by
  have hguard : (ch.add_tags.isSome || ch.remove_tags.isSome) = true := by
    rcases hsome with h | h <;> simp [h]
  unfold finalTagNames buildPatch
  rw [hnone]
  simp only [hguard, if_true]
  cases hr : ch.remove_tags with
  | none =>
    simp only [Option.getD_none]
    rw [map_tag_mk]
    symm
    simp
  | some rems =>
    simp only [Option.getD_some]
    rw [map_tag_mk]

/-- In add/remove mode with both lists absent the final names are the
current names. -/
theorem finalTagNames_noop (d : ItemData) (ch : UpdateChanges)
    (hnone : ch.tags = none) (ha : ch.add_tags = none) (hr : ch.remove_tags = none) :
    finalTagNames d ch = d.tags.map (fun zt => zt.tag) := by
  unfold finalTagNames buildPatch
  rw [hnone, ha, hr]
  rfl

/-- C8: a replacement tags list wins outright and add/remove are ignored;
otherwise the final tag set is (current union add) minus remove — so
adding a present tag and removing an absent tag are list-level no-ops
(never errors), and add-then-remove of one name yields the original list
minus that name. -/
theorem updateItem_tag_reconciliation :
    (∀ (d : ItemData) (ch : UpdateChanges) (ts : List String), ch.tags = some ts →
      (buildPatch d ch).tags = some (ts.map (fun t => (⟨t⟩ : ZTag)))) ∧
    (∀ (d : ItemData) (ch : UpdateChanges), ch.tags = none →
      ∀ t : String, t ∈ finalTagNames d ch ↔
        ((t ∈ d.tags.map (fun zt => zt.tag) ∨ t ∈ ch.add_tags.getD []) ∧
         t ∉ ch.remove_tags.getD [])) ∧
    (∀ (d : ItemData) (adds : List String),
      (∀ t ∈ adds, t ∈ d.tags.map (fun zt => zt.tag)) →
      finalTagNames d { add_tags := some adds } = d.tags.map (fun zt => zt.tag)) ∧
    (∀ (d : ItemData) (rems : List String),
      (∀ t ∈ rems, t ∉ d.tags.map (fun zt => zt.tag)) →
      finalTagNames d { remove_tags := some rems } = d.tags.map (fun zt => zt.tag)) ∧
    (∀ (d : ItemData) (x : String),
      finalTagNames d { add_tags := some [x], remove_tags := some [x] } =
        (d.tags.map (fun zt => zt.tag)).filter (fun t => t != x)) := by
  refine ⟨?_, ?_, ?_, ?_, ?_⟩
  · intro d ch ts hts
    unfold buildPatch
    rw [hts]
  · intro d ch hnone t
    cases ha : ch.add_tags with
    | none =>
      cases hr : ch.remove_tags with
      | none => simp [finalTagNames_noop d ch hnone ha hr, ha, hr]
      | some rems =>
        rw [finalTagNames_addRemove d ch hnone (Or.inr (by simp [hr]))]
        simp [List.mem_filter, mem_addMissing, ha, hr, List.elem_iff]
    | some adds =>
      rw [finalTagNames_addRemove d ch hnone (Or.inl (by simp [ha]))]
      simp [List.mem_filter, mem_addMissing, ha, List.elem_iff]
  · intro d adds h
    rw [finalTagNames_addRemove d _ rfl (Or.inl (by simp))]
    simp only [Option.getD_some, Option.getD_none]
    rw [addMissing_of_subset adds _ h]
    simp
  · intro d rems h
    rw [finalTagNames_addRemove d _ rfl (Or.inr (by simp))]
    simp only [Option.getD_some, Option.getD_none]
    rw [show addMissing (d.tags.map (fun zt => zt.tag)) [] = d.tags.map (fun zt => zt.tag) from rfl]
    refine List.filter_eq_self.mpr (fun a hm => ?_)
    have : a ∉ rems := fun hmem => h a hmem hm
    simpa [List.elem_iff] using this
  · intro d x
    rw [finalTagNames_addRemove d _ rfl (Or.inl (by simp))]
    simp only [Option.getD_some]
    have hpred : ∀ a : String, (!([x].contains a)) = (a != x) := by
      intro a
      cases h : a == x <;> simp [List.contains, List.elem, h, bne]
    rw [addMissing_cons]
    by_cases hx : (d.tags.map (fun zt => zt.tag)).contains x
    · rw [if_pos hx]
      exact List.filter_congr (fun a _ => hpred a)
    · rw [if_neg hx]
      show ((d.tags.map (fun zt => zt.tag)) ++ [x]).filter (fun t => !([x].contains t)) = _
      rw [List.filter_append]
      have h2 : List.filter (fun t => !([x].contains t)) [x] = [] := by
        simp [List.filter, List.contains, List.elem]
      rw [h2, List.append_nil]
      exact List.filter_congr (fun a _ => hpred a)

/-- C8 witness: add "y" and remove "x" on {"x"} yields exactly {"y"}. -/
theorem updateItem_tag_reconciliation_witness :
    ("y" ∈ finalTagNames { tags := [⟨"x"⟩] } { add_tags := some ["y"], remove_tags := some ["x"] }) ∧
    ¬ ("x" ∈ finalTagNames { tags := [⟨"x"⟩] } { add_tags := some ["y"], remove_tags := some ["x"] }) :=
  ⟨(updateItem_tag_reconciliation.2.1
      { tags := [⟨"x"⟩] } { add_tags := some ["y"], remove_tags := some ["x"] } rfl "y").mpr
      (by decide),
   fun hx => by
    have h := (updateItem_tag_reconciliation.2.1
      { tags := [⟨"x"⟩] } { add_tags := some ["y"], remove_tags := some ["x"] } rfl "x").mp hx
    exact absurd h (by decide)⟩

-- =========================================================================
-- C1 — fulltext resolution order
-- =========================================================================

/-- The sequential probe loop is the first-success search over the list. -/
theorem probeAttachments_findSome (ft : String → Option FulltextData) :
    ∀ l : List ChildItem, probeAttachments ft l = l.findSome? (probeOne ft) := by
  intro l
  induction l with
  | nil => rfl
  | cons a rest ih =>
    simp only [probeAttachments, List.findSome?_cons]
    cases h : ft a.key with
    | none => simp [probeOne, h, ih]
    | some d =>
      by_cases hc : d.content != ""
      · simp [probeOne, h, hc]
      · simp [probeOne, h, hc, ih]

/-- The PDF group of the probe order is exactly the PDF attachments, in
their original relative order. -/
theorem probeOrder_filter_pdf (atts : List ChildItem) :
    (Mcp.probeOrder atts).filter isPdfAtt = atts.filter isPdfAtt := by
  unfold Mcp.probeOrder
  rw [List.filter_append]
  have h1 : (atts.filter isPdfAtt).filter isPdfAtt = atts.filter isPdfAtt :=
    List.filter_eq_self.mpr (fun a ha => (List.mem_filter.mp ha).2)
  have h2 : (atts.filter (fun a => !isPdfAtt a)).filter isPdfAtt = [] := by
    refine List.filter_eq_nil_iff.mpr (fun a ha => ?_)
    have hnp := (List.mem_filter.mp ha).2
    simp only [Bool.not_eq_true'] at hnp
    simp [hnp]
  rw [h1, h2, List.append_nil]

/-- The non-PDF group of the probe order is exactly the non-PDF
attachments, in their original relative order. -/
theorem probeOrder_filter_nonpdf (atts : List ChildItem) :
    (Mcp.probeOrder atts).filter (fun a => !isPdfAtt a) =
      atts.filter (fun a => !isPdfAtt a) := by
  unfold Mcp.probeOrder
  rw [List.filter_append]
  have h1 : (atts.filter isPdfAtt).filter (fun a => !isPdfAtt a) = [] := by
    refine List.filter_eq_nil_iff.mpr (fun a ha => ?_)
    have hp := (List.mem_filter.mp ha).2
    simp [hp]
  have h2 : (atts.filter (fun a => !isPdfAtt a)).filter (fun a => !isPdfAtt a) =
      atts.filter (fun a => !isPdfAtt a) :=
    List.filter_eq_self.mpr (fun a ha => (List.mem_filter.mp ha).2)
  rw [h1, h2, List.nil_append]

/-- Every entry of the leading block of the probe order is a PDF. -/
theorem probeOrder_take (atts : List ChildItem) :
    ∀ a ∈ (Mcp.probeOrder atts).take (atts.filter isPdfAtt).length, isPdfAtt a = true := by
  intro a ha
  rw [Mcp.probeOrder, List.take_left] at ha
  exact (List.mem_filter.mp ha).2

/-- Every entry of the trailing block of the probe order is a non-PDF. -/
theorem probeOrder_drop (atts : List ChildItem) :
    ∀ a ∈ (Mcp.probeOrder atts).drop (atts.filter isPdfAtt).length, isPdfAtt a = false := by
  intro a ha
  rw [Mcp.probeOrder, List.drop_left] at ha
  have hnp := (List.mem_filter.mp ha).2
  simpa using hnp

/-- Evaluation of the packages-copy resolver on a parent item. -/
theorem mcp_parent_eval (store : Mcp.FulltextStore) (itemKey : String)
    (meta : ItemMeta) (cs : List ChildItem)
    (h1 : store.itemRead = .ok meta) (h2 : meta.itemType ≠ "attachment")
    (h3 : store.children = .ok cs) :
    Mcp.getItemFulltext store itemKey =
      (if (fulltextEligible cs).isEmpty then Mcp.noAttachmentsResult itemKey
       else
         match (Mcp.probeOrder (fulltextEligible cs)).findSome? (probeOne store.fulltext) with
         | some (att, ft) => Mcp.foundResult itemKey att ft
         | none => Mcp.exhaustedResult itemKey (fulltextEligible cs)) := by
  have hb : (meta.itemType == "attachment") = false := by simpa using h2
  simp only [Mcp.getItemFulltext, h1, hb, Bool.false_eq_true, if_false, h3,
    probeAttachments_findSome]

/-- Evaluation of the legacy resolver when the direct probe misses. -/
theorem legacy_eval_miss (store : Legacy.FulltextStore) (itemKey : String)
    (hd : ∀ d, store.direct = some d → d.content = "") :
    Legacy.getItemFulltext store itemKey = Legacy.probePhase store itemKey := by
  unfold Legacy.getItemFulltext
  cases h : store.direct with
  | none => rfl
  | some d =>
    have hc := hd d h
    simp [hc]

/-- Evaluation of the legacy probing phase. -/
theorem legacy_probePhase_eval (store : Legacy.FulltextStore) (itemKey : String)
    (cs : List ChildItem) (h3 : store.children = .ok cs) :
    Legacy.probePhase store itemKey =
      (match (fulltextEligible cs).findSome? (probeOne store.fulltext) with
       | some (att, ft) =>
         { item_key := some itemKey
         , attachment_key := some att.key
         , content := some ft.content
         , source := some "child_attachment_fulltext" }
       | none =>
         { item_key := some itemKey
         , content := none
         , message := some "No full-text content available for this item." }) := by
  simp only [Legacy.probePhase, h3, probeAttachments_findSome]

/-- C1 (amended): the packages-copy resolver probes PDF child attachments
strictly before all non-PDF children (relative order preserved inside each
group), returns on the first attachment with content, and reports absent
content with an explanatory message — not an error — when there are no
eligible attachments or none is indexed; the legacy (worker) copy instead
probes the item's own fulltext first and then the children in the store's
order, with no PDF prioritisation, likewise ending in absent content with
a message rather than an error. -/
theorem getItemFulltext_resolution :
    (∀ (store : Mcp.FulltextStore) (itemKey : String) (meta : ItemMeta) (cs : List ChildItem),
      store.itemRead = .ok meta → meta.itemType ≠ "attachment" → store.children = .ok cs →
      (∀ a ∈ (Mcp.probeOrder (fulltextEligible cs)).take
          (((fulltextEligible cs).filter isPdfAtt).length), isPdfAtt a = true) ∧
      (∀ a ∈ (Mcp.probeOrder (fulltextEligible cs)).drop
          (((fulltextEligible cs).filter isPdfAtt).length), isPdfAtt a = false) ∧
      (Mcp.probeOrder (fulltextEligible cs)).filter isPdfAtt =
        (fulltextEligible cs).filter isPdfAtt ∧
      (Mcp.probeOrder (fulltextEligible cs)).filter (fun a => !isPdfAtt a) =
        (fulltextEligible cs).filter (fun a => !isPdfAtt a) ∧
      (∀ att ft,
        (Mcp.probeOrder (fulltextEligible cs)).findSome? (probeOne store.fulltext) =
          some (att, ft) →
        Mcp.getItemFulltext store itemKey = Mcp.foundResult itemKey att ft ∧
        (Mcp.foundResult itemKey att ft).content = some ft.content ∧
        (Mcp.foundResult itemKey att ft).error = none) ∧
      ((Mcp.probeOrder (fulltextEligible cs)).findSome? (probeOne store.fulltext) = none →
        (Mcp.getItemFulltext store itemKey).content = none ∧
        (Mcp.getItemFulltext store itemKey).message.isSome ∧
        (Mcp.getItemFulltext store itemKey).error = none)) ∧
    (∀ (store : Legacy.FulltextStore) (itemKey : String) (cs : List ChildItem),
      store.children = .ok cs →
      (∀ d, store.direct = some d → d.content ≠ "" →
        Legacy.getItemFulltext store itemKey =
          { item_key := some itemKey, content := some d.content
          , source := some "fulltext_api" }) ∧
      ((∀ d, store.direct = some d → d.content = "") →
        (∀ att ft,
          (fulltextEligible cs).findSome? (probeOne store.fulltext) = some (att, ft) →
          (Legacy.getItemFulltext store itemKey).attachment_key = some att.key ∧
          (Legacy.getItemFulltext store itemKey).content = some ft.content ∧
          (Legacy.getItemFulltext store itemKey).error = none) ∧
        ((fulltextEligible cs).findSome? (probeOne store.fulltext) = none →
          (Legacy.getItemFulltext store itemKey).content = none ∧
          (Legacy.getItemFulltext store itemKey).message.isSome ∧
          (Legacy.getItemFulltext store itemKey).error = none))) := by
  constructor
  · intro store itemKey meta cs h1 h2 h3
    refine ⟨probeOrder_take _, probeOrder_drop _, probeOrder_filter_pdf _,
      probeOrder_filter_nonpdf _, ?_, ?_⟩
    · intro att ft hfind
      have hne : (fulltextEligible cs).isEmpty = false := by
        by_contra hx
        have hxe : fulltextEligible cs = [] :=
          List.isEmpty_iff.mp (by simpa using hx)
        rw [hxe] at hfind
        simp [Mcp.probeOrder] at hfind
      rw [mcp_parent_eval store itemKey meta cs h1 h2 h3, if_neg (by simp [hne]), hfind]
      exact ⟨rfl, rfl, rfl⟩
    · intro hfind
      rw [mcp_parent_eval store itemKey meta cs h1 h2 h3]
      by_cases hemp : (fulltextEligible cs).isEmpty
      · rw [if_pos hemp]
        exact ⟨rfl, rfl, rfl⟩
      · rw [if_neg hemp, hfind]
        exact ⟨rfl, rfl, rfl⟩
  · intro store itemKey cs h3
    constructor
    · intro d hdir hcont
      unfold Legacy.getItemFulltext
      rw [hdir]
      simp [hcont]
    · intro hd
      rw [legacy_eval_miss store itemKey hd, legacy_probePhase_eval store itemKey cs h3]
      constructor
      · intro att ft hfind
        rw [hfind]
        exact ⟨rfl, rfl, rfl⟩
      · intro hfind
        rw [hfind]
        exact ⟨rfl, rfl, rfl⟩

/-- An indexed HTML child listed before an indexed PDF child. -/
def cexHtmlChild : ChildItem :=
  { key := "H1", data := { itemType := "attachment", contentType := some "text/html" } }

/-- The indexed PDF child listed after it. -/
def cexPdfChild : ChildItem :=
  { key := "P1", data := { itemType := "attachment", contentType := some "application/pdf" } }

/-- A legacy store with both children indexed. -/
def cexLegacyStore : Legacy.FulltextStore :=
  { direct := none
  , children := .ok [cexHtmlChild, cexPdfChild]
  , fulltext := fun k =>
      if k == "H1" then some { content := "HTML TEXT" }
      else if k == "P1" then some { content := "PDF TEXT" } else none }

/-- C1 counterexample: on the legacy copy (`src/zotero.ts`,
`getItemFulltext`), a parent whose children are an indexed HTML attachment
followed by an indexed PDF attachment resolves to the HTML attachment's
text — the non-PDF is probed and returned first, so PDFs are not probed
strictly before non-PDFs. -/
theorem getItemFulltext_storeOrder_cex :
    (Legacy.getItemFulltext cexLegacyStore "ITEM").attachment_key = some "H1" ∧
    (Legacy.getItemFulltext cexLegacyStore "ITEM").content = some "HTML TEXT" ∧
    isPdfAtt cexPdfChild = true ∧
    isPdfAtt cexHtmlChild = false ∧
    cexLegacyStore.fulltext "P1" = some { content := "PDF TEXT" } :=
  ⟨by decide, by decide, by decide, by decide, by decide⟩

/-- The single indexed PDF child of the witness store. -/
def wPdfChild : ChildItem :=
  { key := "PW", data := { itemType := "attachment", contentType := some "application/pdf" } }

/-- A packages-copy store with one indexed PDF child. -/
def wFulltextStore : Mcp.FulltextStore :=
  { itemRead := .ok { itemType := "journalArticle" }
  , children := .ok [wPdfChild]
  , fulltext := fun k => if k == "PW" then some { content := "TEXT" } else none }

/-- C1 witness: the amended theorem at a concrete store resolves to the
PDF child's content. -/
theorem getItemFulltext_resolution_witness :
    Mcp.getItemFulltext wFulltextStore "IT" =
      Mcp.foundResult "IT" wPdfChild { content := "TEXT" } :=
  ((getItemFulltext_resolution.1 wFulltextStore "IT" { itemType := "journalArticle" }
      [wPdfChild] rfl (by decide) rfl).2.2.2.2.1 wPdfChild { content := "TEXT" }
      (by decide)).1

-- =========================================================================
-- C2 — updateItem version discipline and conflict reporting
-- =========================================================================

/-- A store whose patch application is rejected as a version conflict. -/
def conflictStore : UpdateStore :=
  { readItem := .ok { version := 7 }
  , applyPatch := fun _ _ => .error (.conflict "request failed") }

/-- A store whose patch application fails on the network, with the same
error message. -/
def networkStore : UpdateStore :=
  { readItem := .ok { version := 7 }
  , applyPatch := fun _ _ => .error (.network "request failed") }

/-- C2 counterexample: `updateItem` observes only `err.message`, so a
version conflict and a network failure that carry the same message
produce literally identical results and traces — the caller cannot
distinguish the Conflict condition. -/
theorem updateItem_conflict_indistinct_cex :
    updateItem conflictStore "K" {} = updateItem networkStore "K" {} ∧
    conflictStore.applyPatch 7 (buildPatch {} {}) = .error (.conflict "request failed") ∧
    networkStore.applyPatch 7 (buildPatch {} {}) = .error (.network "request failed") :=
  ⟨rfl, rfl, rfl⟩

/-- C2 (amended): the patch is applied exactly once, with the version and
data read immediately before; a read failure stops before any patch; any
patch failure — a conflict included — surfaces as `success: false`
carrying the thrown error's message, with no re-read and no retry. -/
theorem updateItem_version_discipline :
    (∀ (store : UpdateStore) (itemKey : String) (changes : UpdateChanges) (raw : ItemRaw),
      store.readItem = .ok raw →
        (updateItem store itemKey changes).2 =
          [.read, .patched raw.version (buildPatch raw.data changes)] ∧
        (∀ e, store.applyPatch raw.version (buildPatch raw.data changes) = .error e →
          (updateItem store itemKey changes).1 =
            { success := false, error := some e.message })) ∧
    (∀ (store : UpdateStore) (itemKey : String) (changes : UpdateChanges) (e : ZoteroFailure),
      store.readItem = .error e →
        updateItem store itemKey changes =
          ({ success := false, error := some e.message }, [.read])) := by
  constructor
  · intro store itemKey changes raw h
    constructor
    · simp only [updateItem, h]
      cases hp : store.applyPatch raw.version (buildPatch raw.data changes) <;> simp [hp]
    · intro e he
      simp only [updateItem, h, he]
  · intro store itemKey changes e h
    simp only [updateItem, h]

/-- C2 witness: the amended theorem at a concrete conflicting store. -/
theorem updateItem_version_discipline_witness :
    (updateItem conflictStore "K" {}).2 = [.read, .patched 7 (buildPatch {} {})] ∧
    (updateItem conflictStore "K" {}).1 =
      { success := false, error := some "request failed" } :=
  ⟨(updateItem_version_discipline.1 conflictStore "K" {} { version := 7 } rfl).1,
   (updateItem_version_discipline.1 conflictStore "K" {} { version := 7 } rfl).2
     (.conflict "request failed") rfl⟩

-- =========================================================================
-- C3 — createItem partial success (code bug via the URIError path)
-- =========================================================================

/-- Oracle: the item post succeeds, then the PDF attachment operation
throws (the `URIError` escaping `unwrapUrl` is the only way it can). -/
def throwingCreateOracle : CreateOracle :=
  { template := .ok (), postItem := .ok (some "KEY1"), attachPdf := .error () }

/-- Oracle: the same create, but the attachment operation returns a
failure result instead of throwing. -/
def failingCreateOracle : CreateOracle :=
  { template := .ok ()
  , postItem := .ok (some "KEY1")
  , attachPdf := .ok { success := false
                     , error := some "Failed to download PDF: HTTP 404 Not Found" } }

/-- The create request: a pdf_url whose query parameter decodes to a lone
percent sign (`...?url=%25`), the input on which `unwrapUrl` throws. -/
def percentCreateParams : CreateParams :=
  { title := "T", pdfUrl := some "https://host.example/proxy.php?url=%25" }

/-- C3: when the item is persisted and the attachment operation then
*returns* a failure, createItem reports overall success with the failure
nested — but when the attachment operation *throws* (reachable through a
malformed percent-encoding in the attachment URL, which `unwrapUrl`
re-decodes outside any try/catch), the outer catch converts the whole
create into `success: false` and the persisted item's key is lost,
contradicting the claimed always-partial-success behaviour. -/
theorem createItem_attachment_throw_bug :
    createItem throwingCreateOracle percentCreateParams =
      { success := false, error := some "URI malformed" } ∧
    unwrapUrl (some { pathname := "/proxy.php", searchParams := [("url", "%")] })
      "https://host.example/proxy.php?url=%25" = .error () ∧
    createItem failingCreateOracle percentCreateParams =
      { success := true
      , item_key := some "KEY1"
      , message := some "Created webpage: T"
      , pdf_attachment := some { success := false
                               , error := some "Failed to download PDF: HTTP 404 Not Found" } } :=
  ⟨by decide, by decide, by decide⟩

-- =========================================================================
-- C4 — two-phase attachment protocol
-- =========================================================================

/-- C4 (amended): for both attachment operations, a failed registration
(a thrown post or an empty entity) is terminal — no upload request is
ever issued; an upload that completes with a non-ok response yields a
failure result that carries the registered key; but an upload that
*throws* is caught by the generic handler and yields a failure result
without the key.  The bodies are what the public operations run once the
URL unwrap has succeeded. -/
theorem attachment_two_phase :
    (∀ (o : AttachOracle) (u : String) (fn : Option String),
      (∀ k, o.registerResult ≠ .ok (some k)) →
      ∀ k, AttachEvent.uploadIssued k ∉ (attachPdfBody o u fn).2) ∧
    (∀ (o : AttachOracle) (u : String) (t : Option String),
      (∀ k, o.registerResult ≠ .ok (some k)) →
      ∀ k, AttachEvent.uploadIssued k ∉ (attachSnapshotBody o u t).2) ∧
    (∀ (o : AttachOracle) (u : String) (fn : Option String) (key : String)
        (up : UploadResp) (resp : FetchResponse),
      o.fetchResult = .ok resp → resp.ok = true → resp.bodyBytesLen ≠ 0 →
      o.registerResult = .ok (some key) → o.uploadResult = .ok up → up.ok = some false →
      attachPdfBody o u fn =
        ({ success := false
         , error := some ("Attachment item created (" ++ key ++
             ") but file upload failed. Status: " ++ statusRepr up.status ++
             ". Response: " ++ up.bodyRepr)
         , attachment_key := some key },
         [.fetchIssued, .registerIssued, .uploadIssued key])) ∧
    (∀ (o : AttachOracle) (u : String) (t : Option String) (key : String)
        (up : UploadResp) (resp : FetchResponse),
      o.fetchResult = .ok resp → resp.ok = true → resp.bodyText ≠ "" →
      o.registerResult = .ok (some key) → o.uploadResult = .ok up → up.ok = some false →
      attachSnapshotBody o u t =
        ({ success := false
         , error := some ("Attachment item created (" ++ key ++
             ") but file upload failed. Status: " ++ statusRepr up.status ++
             ". Response: " ++ up.bodyRepr)
         , attachment_key := some key },
         [.fetchIssued, .registerIssued, .uploadIssued key])) ∧
    (∀ (o : AttachOracle) (u : String) (fn : Option String) (key msg : String)
        (resp : FetchResponse),
      o.fetchResult = .ok resp → resp.ok = true → resp.bodyBytesLen ≠ 0 →
      o.registerResult = .ok (some key) → o.uploadResult = .error msg →
      attachPdfBody o u fn =
        ({ success := false, error := some ("Failed to attach PDF: " ++ msg) },
         [.fetchIssued, .registerIssued, .uploadIssued key])) ∧
    (∀ (o : AttachOracle) (u : String) (t : Option String) (key msg : String)
        (resp : FetchResponse),
      o.fetchResult = .ok resp → resp.ok = true → resp.bodyText ≠ "" →
      o.registerResult = .ok (some key) → o.uploadResult = .error msg →
      attachSnapshotBody o u t =
        ({ success := false, error := some ("Failed to attach snapshot: " ++ msg) },
         [.fetchIssued, .registerIssued, .uploadIssued key])) ∧
    (∀ (o : AttachOracle) (u : String) (fn : Option String), o.parsed = none →
      attachPdfFromUrl o u fn = .ok (attachPdfBody o u fn)) ∧
    (∀ (o : AttachOracle) (u : String) (t : Option String), o.parsed = none →
      attachSnapshot o u t = .ok (attachSnapshotBody o u t)) := by
  refine ⟨?_, ?_, ?_, ?_, ?_, ?_, ?_, ?_⟩
  · intro o u fn hreg k
    unfold attachPdfBody
    cases hf : o.fetchResult with
    | error msg => simp
    | ok resp =>
      cases hr : o.registerResult with
      | error m =>
        repeat' split
        all_goals simp_all
      | ok okey =>
        cases okey with
        | none =>
          repeat' split
          all_goals simp_all
        | some kk => exact absurd hr (hreg kk)
  · intro o u t hreg k
    unfold attachSnapshotBody
    cases hf : o.fetchResult with
    | error msg => simp
    | ok resp =>
      cases hr : o.registerResult with
      | error m =>
        repeat' split
        all_goals (try simp_all)
        all_goals (split <;> simp_all)
      | ok okey =>
        cases okey with
        | none =>
          repeat' split
          all_goals (try simp_all)
          all_goals (split <;> simp_all)
        | some kk => exact absurd hr (hreg kk)
  · intro o u fn key up resp hf hok hlen hr hu hb
    have h1 : (!resp.ok) = false := by rw [hok]; rfl
    have h2 : (resp.bodyBytesLen == 0) = false := beq_eq_false_iff_ne.mpr hlen
    have h3 : (up.ok == some false) = true := by rw [hb]; rfl
    simp only [attachPdfBody, hf, h1, h2, hr, hu, h3, Bool.false_eq_true, if_false, if_true]
  · intro o u t key up resp hf hok hlen hr hu hb
    have h1 : (!resp.ok) = false := by rw [hok]; rfl
    have h2 : (resp.bodyText == "") = false := beq_eq_false_iff_ne.mpr hlen
    have h3 : (up.ok == some false) = true := by rw [hb]; rfl
    simp only [attachSnapshotBody, hf, h1, h2, hr, hu, h3, Bool.false_eq_true, if_false, if_true]
  · intro o u fn key msg resp hf hok hlen hr hu
    have h1 : (!resp.ok) = false := by rw [hok]; rfl
    have h2 : (resp.bodyBytesLen == 0) = false := beq_eq_false_iff_ne.mpr hlen
    simp only [attachPdfBody, hf, h1, h2, hr, hu, Bool.false_eq_true, if_false]
  · intro o u t key msg resp hf hok hlen hr hu
    have h1 : (!resp.ok) = false := by rw [hok]; rfl
    have h2 : (resp.bodyText == "") = false := beq_eq_false_iff_ne.mpr hlen
    simp only [attachSnapshotBody, hf, h1, h2, hr, hu, Bool.false_eq_true, if_false]
  · intro o u fn hp
    simp [attachPdfFromUrl, unwrapUrl, hp]
  · intro o u t hp
    simp [attachSnapshot, unwrapUrl, hp]

/-- An oracle whose upload request throws after a successful registration. -/
def throwingUploadOracle : AttachOracle :=
  { parsed := none
  , fetchResult := .ok { bodyBytesLen := 3 }
  , registerResult := .ok (some "ABC123")
  , uploadResult := .error "network timeout" }

/-- C4 counterexample: registration succeeds (key "ABC123"), the binary
upload then throws, and the returned failure result does NOT include the
registered attachment's key — the generic catch drops it. -/
theorem attachPdf_upload_throw_cex :
    attachPdfFromUrl throwingUploadOracle "https://files.example/doc.pdf" none =
      .ok ({ success := false, error := some "Failed to attach PDF: network timeout" },
           [.fetchIssued, .registerIssued, .uploadIssued "ABC123"]) ∧
    ({ success := false, error := some "Failed to attach PDF: network timeout" }
      : AttachResult).attachment_key = none :=
  ⟨by decide, rfl⟩

/-- An oracle whose upload completes with an HTTP failure. -/
def nonOkUploadOracle : AttachOracle :=
  { parsed := none
  , fetchResult := .ok { bodyBytesLen := 3 }
  , registerResult := .ok (some "K1")
  , uploadResult := .ok { ok := some false, status := some 403, bodyRepr := "denied" } }

/-- C4 witness: the amended theorem at a concrete oracle — a non-ok
upload response carries the registered key in the failure result. -/
theorem attachment_two_phase_witness :
    attachPdfBody nonOkUploadOracle "https://f.example/a.pdf" none =
      ({ success := false
       , error := some ("Attachment item created (K1) but file upload failed. Status: " ++
           statusRepr (some 403) ++ ". Response: denied")
       , attachment_key := some "K1" },
       [.fetchIssued, .registerIssued, .uploadIssued "K1"]) :=
  attachment_two_phase.2.2.1 nonOkUploadOracle "https://f.example/a.pdf" none "K1"
    { ok := some false, status := some 403, bodyRepr := "denied" } { bodyBytesLen := 3 }
    rfl rfl (by decide) rfl rfl rfl

-- =========================================================================
-- C5 — getLibraryStats failure propagation
-- =========================================================================

/-- Oracle whose tag query fails while the other two succeed. -/
def tagsFailOracle : StatsOracle :=
  { itemsQuery := .ok { totalResultsHeader := some 100
                      , raw := [{ data_title := some "T", data_dateModified := some "D" }] }
  , collectionsQuery := .ok [{ key := "C1", data_name := "Papers" }]
  , tagsQuery := .error "boom" }

/-- C5 counterexample: a failed tag query does NOT fail the aggregation —
`listTags` catches its own error and `getLibraryStats` silently turns the
missing `tags` field into an empty section. -/
theorem getLibraryStats_tags_failure_cex :
    getLibraryStats tagsFailOracle =
      { total_items := some 100
      , total_collections := some 1
      , total_tags := some 0
      , collections := some [("C1", "Papers")]
      , top_tags := some []
      , last_modified_item := some { title := "T", date := some "D" }
      , error := none } ∧
    tagsFailOracle.tagsQuery = .error "boom" :=
  ⟨by decide, rfl⟩

/-- C5 (amended): a failure of the item probe or of the collection list
fails the whole aggregation with an error result; a failure of the tag
list does not — the stats are returned without error, with an empty
top-tags section in place of the failed query's data. -/
theorem getLibraryStats_failure_modes :
    (∀ (o : StatsOracle) (msg : String), o.itemsQuery = .error msg →
      getLibraryStats o = { error := some msg }) ∧
    (∀ (o : StatsOracle) (msg : String) (probe : ItemsProbe),
      o.itemsQuery = .ok probe → o.collectionsQuery = .error msg →
      getLibraryStats o = { error := some msg }) ∧
    (∀ (o : StatsOracle) (msg : String) (probe : ItemsProbe) (cols : List RawCollection),
      o.itemsQuery = .ok probe → o.collectionsQuery = .ok cols → o.tagsQuery = .error msg →
      (getLibraryStats o).error = none ∧
      (getLibraryStats o).top_tags = some [] ∧
      (getLibraryStats o).total_tags = some 0) := by
  refine ⟨?_, ?_, ?_⟩
  · intro o msg h
    simp only [getLibraryStats, h]
  · intro o msg probe hi hc
    simp only [getLibraryStats, hi, listCollections, hc, Except.map]
  · intro o msg probe cols hi hc ht
    simp [getLibraryStats, hi, listCollections, hc, Except.map, listTags, ht, sortTagsDesc]

/-- C5 witness: the amended theorem at a concrete failing item probe. -/
theorem getLibraryStats_failure_modes_witness :
    getLibraryStats { itemsQuery := .error "down"
                    , collectionsQuery := .ok []
                    , tagsQuery := .ok [] } = { error := some "down" } :=
  getLibraryStats_failure_modes.1
    { itemsQuery := .error "down", collectionsQuery := .ok [], tagsQuery := .ok [] }
    "down" rfl

-- =========================================================================
-- C10 — listings exclude attachments and notes
-- =========================================================================

/-- Any summary produced from the filtered raw list is neither an
attachment nor a note. -/
theorem mem_filtered_summary (raw : List RawItem) (s : ItemSummary)
    (h : s ∈ (raw.filter keepTopLevel).map formatItemSummary) :
    s.itemType ≠ "attachment" ∧ s.itemType ≠ "note" := by
  obtain ⟨r, hr, rfl⟩ := List.mem_map.mp h
  have hk := (List.mem_filter.mp hr).2
  unfold keepTopLevel at hk
  simp only [Bool.and_eq_true, bne_iff_ne] at hk
  exact hk

/-- A response whose header reports five results while the only raw item
is an attachment. -/
def attachOnlyResponse : ListResponse :=
  { totalResultsHeader := some 5
  , raw := [{ data := { itemType := "attachment" } }] }

/-- C10: no non-error listing of searchItems, getCollectionItems or
getRecentItems contains an item summary whose itemType is "attachment" or
"note" — children are filtered out of listings — while the reported
totalResults is the store's Total-Results header whenever that header is
present, independently of the filtering, so it can exceed the number of
items returned (witnessed by the concrete instance in the last
conjunct). -/
theorem listings_exclude_children :
    (∀ (resp : Except String ListResponse) (limit offset : Nat) (s : ItemSummary),
      s ∈ (searchItems resp limit offset).items.getD [] →
      s.itemType ≠ "attachment" ∧ s.itemType ≠ "note") ∧
    (∀ (resp : Except String ListResponse) (limit offset : Nat) (s : ItemSummary),
      s ∈ (getCollectionItems resp limit offset).items.getD [] →
      s.itemType ≠ "attachment" ∧ s.itemType ≠ "note") ∧
    (∀ (resp : Except String ListResponse) (s : ItemSummary),
      s ∈ (getRecentItems resp).items.getD [] →
      s.itemType ≠ "attachment" ∧ s.itemType ≠ "note") ∧
    (∀ (r : ListResponse) (limit offset n : Nat), r.totalResultsHeader = some n →
      (searchItems (.ok r) limit offset).totalResults = some n) ∧
    (∀ (r : ListResponse) (limit offset n : Nat), r.totalResultsHeader = some n →
      (getCollectionItems (.ok r) limit offset).totalResults = some n) ∧
    ((searchItems (.ok attachOnlyResponse) 25 0).totalResults = some 5 ∧
     (searchItems (.ok attachOnlyResponse) 25 0).items = some []) := by
  refine ⟨?_, ?_, ?_, ?_, ?_, by decide, by decide⟩
  · intro resp limit offset s hs
    cases resp with
    | error msg => simp [searchItems] at hs
    | ok r => exact mem_filtered_summary r.raw s (by simpa [searchItems] using hs)
  · intro resp limit offset s hs
    cases resp with
    | error msg => simp [getCollectionItems] at hs
    | ok r => exact mem_filtered_summary r.raw s (by simpa [getCollectionItems] using hs)
  · intro resp s hs
    cases resp with
    | error msg => simp [getRecentItems] at hs
    | ok r => exact mem_filtered_summary r.raw s (by simpa [getRecentItems] using hs)
  · intro r limit offset n hn
    simp [searchItems, hn]
  · intro r limit offset n hn
    simp [getCollectionItems, hn]

/-- A response whose only raw item is a book. -/
def wListResponse : ListResponse :=
  { raw := [{ data := { itemType := "book", title := some "B" } }] }

/-- C10 witness: the theorem at a concrete response. -/
theorem listings_exclude_children_witness :
    (formatItemSummary { data := { itemType := "book", title := some "B" } }).itemType ≠
      "attachment" :=
  (listings_exclude_children.1 (.ok wListResponse) 25 0
    (formatItemSummary { data := { itemType := "book", title := some "B" } }) (by decide)).1

/-- C6 witness: the amended theorem applied to a wrapper URL with an
encoded absolute inner URL. -/
theorem unwrapUrl_first_qualifying_witness :
    unwrapUrl (some { pathname := "/proxy.php", searchParams := [("url", "https://inner.example/x")] })
      "https://wrapper.example/proxy.php?url=https%3A%2F%2Finner.example%2Fx"
      = .ok "https://inner.example/x" :=
  (unwrapUrl_first_qualifying
    { pathname := "/proxy.php", searchParams := [("url", "https://inner.example/x")] }
    "https://wrapper.example/proxy.php?url=https%3A%2F%2Finner.example%2Fx"
    (by decide)).trans (by decide)

end Zot
